import Mathlib

/-!
Shallow embedding of the socket-engine repository (DTN-MTP/socket-engine).

Strings from the Rust sources are modelled as `List Char`; byte buffers as
`List Nat` (each element < 256 where it matters).  Fallible Rust functions
returning `io::Result` are modelled with `Except`.  The sources contain two
evolutionary snapshots of the listener/sender layer (`socket.rs`/`engine.rs`
with `struct Endpoint { proto, endpoint }`, and `listeners.rs`/`senders.rs`
with an `Endpoint` enum of the same information); both are embedded here over
the single `Endpoint` structure of `endpoint.rs`, which carries the same data.
-/

abbrev Str := List Char

/-- The subset of `std::io::ErrorKind` values produced by the embedded code. -/
inductive ErrorKind where
  | InvalidInput
  | Unsupported
  deriving DecidableEq, Repr

/-- `src/endpoint.rs`: `enum EndpointProto { Udp, Tcp, Bp }`. -/
inductive EndpointProto where
  | Udp
  | Tcp
  | Bp
  deriving DecidableEq, Repr

/-- `src/endpoint.rs`: `EndpointProto::to_string`. -/
def EndpointProto.to_string : EndpointProto → Str
  | .Udp => "udp".data
  | .Tcp => "tcp".data
  | .Bp => "bp".data

/-- `src/endpoint.rs`: `struct Endpoint { proto: EndpointProto, endpoint: String }`. -/
structure Endpoint where
  proto : EndpointProto
  endpoint : Str
  deriving DecidableEq, Repr

/-- ASCII lower-casing of one character.  `str::to_lowercase` in
`Endpoint::from_str` is applied to the scheme token and the result is only
compared against the ASCII strings "bp", "tcp", "udp"; on those comparisons
the full Unicode lowering and the ASCII lowering agree (no Unicode character
lowercases to any of those ASCII strings except via the ASCII range). -/
def toLowerChar (c : Char) : Char :=
  if 'A' ≤ c ∧ c ≤ 'Z' then Char.ofNat (c.toNat + 32) else c

def toLowerStr (s : Str) : Str := s.map toLowerChar

/-- Rust `input.splitn(2, sep)`: the part before the first separator, and
(when a separator occurs) the whole remainder after it. -/
def splitn2 (sep : Char) : Str → Str × Option Str
  | [] => ([], none)
  | c :: cs =>
    if c = sep then ([], some cs)
    else
      let r := splitn2 sep cs
      (c :: r.1, r.2)

/-- `src/endpoint.rs` lines 39-60: `Endpoint::from_str`.  The first
`parts.next()` (scheme) never yields `None` on `splitn`, so the
"Missing scheme" error is unreachable; "Missing address" fires when the input
has no space. -/
def Endpoint.from_str (input : Str) : Except Str Endpoint :=
  match splitn2 ' ' input with
  | (_, none) => .error "Missing address".data
  | (scheme, some addr) =>
    let ls := toLowerStr scheme
    if ls = "bp".data then .ok ⟨.Bp, addr⟩
    else if ls = "tcp".data then .ok ⟨.Tcp, addr⟩
    else if ls = "udp".data then .ok ⟨.Udp, addr⟩
    else .error ("Unsupported scheme: ".data ++ scheme)

/-- `src/endpoint.rs` lines 61-64: `Endpoint::to_string`. -/
def Endpoint.to_string (e : Endpoint) : Str :=
  e.proto.to_string ++ ' ' :: e.endpoint

/-- Rust `str::strip_prefix` on the list model: `some` of the remainder when
`p` is a prefix of `s`, otherwise `none`. -/
def stripLead : Str → Str → Option Str
  | [], s => some s
  | _ :: _, [] => none
  | p :: ps, c :: cs => if p = c then stripLead ps cs else none

/-- Rust `str::split(sep)` collected to a vector (`"".split(c)` is `[""]`). -/
def splitAll (sep : Char) : Str → List Str
  | [] => [[]]
  | c :: cs =>
    let r := splitAll sep cs
    if c = sep then [] :: r
    else match r with
      | [] => [[c]]
      | h :: t => (c :: h) :: t

/-- One value of `char::is_ascii_digit`. -/
def isAsciiDigit (c : Char) : Bool := '0' ≤ c && c ≤ '9'

def digitVal (c : Char) : Nat := c.toNat - '0'.toNat

def natOfDigits (s : Str) : Nat := s.foldl (fun a c => a * 10 + digitVal c) 0

/-- Rust `u32::from_str` (as used by `parts[i].parse::<u32>()`): an optional
leading `+`, then one or more ASCII digits, with the accumulated value never
overflowing `u32` (since the accumulator is monotone, that is exactly:
final value < 2^32). -/
def parseU32 (s : Str) : Option Nat :=
  let t := match s with
    | '+' :: r => r
    | _ => s
  if t ≠ [] ∧ t.all isAsciiDigit ∧ natOfDigits t < 2 ^ 32 then some (natOfDigits t)
  else none

/-- `src/socket.rs` / `src/constants.rs`: `pub const AF_BP: c_int = 28`. -/
def AF_BP : Nat := 28

/-- `src/endpoint.rs`: `const BP_SCHEME_IPN: u32 = 1`. -/
def BP_SCHEME_IPN : Nat := 1

/-- `src/endpoint.rs`: `#[repr(C)] struct SockAddrBp { bp_family: sa_family_t,
bp_scheme: u32, bp_addr: BpAddr }` with `BpAddr` a union whose only variant is
`IpnAddr { node_id: u32, service_id: u32 }`.  Fields hold the numeric values. -/
structure SockAddrBp where
  bp_family : Nat
  bp_scheme : Nat
  node_id : Nat
  service_id : Nat
  deriving DecidableEq, Repr

/-- Byte size of `SockAddrBp` under `#[repr(C)]` on the target platform
(Linux: `sa_family_t` = u16 at offset 0, two alignment padding bytes,
u32 scheme at 4, the two u32 of the union at 8 and 12): 16 bytes. -/
def sizeOfSockAddrBp : Nat := 16

/-- `libc::sockaddr_storage` capacity on Linux: 128 bytes. -/
def SOCKADDR_STORAGE_SIZE : Nat := 128

def u16le (n : Nat) : List Nat := [n % 256, n / 256 % 256]

def u32le (n : Nat) : List Nat :=
  [n % 256, n / 256 % 256, n / 256 ^ 2 % 256, n / 256 ^ 3 % 256]

/-- The 16 bytes of a `SockAddrBp` value in its `#[repr(C)]` layout
(little-endian target; the two alignment padding bytes at offsets 2-3 are
modelled as zero). -/
def sockAddrBpBytes (a : SockAddrBp) : List Nat :=
  u16le a.bp_family ++ [0, 0] ++ u32le a.bp_scheme ++ u32le a.node_id ++
    u32le a.service_id

/-- `socket2::SockAddr` as produced here: the `sockaddr_storage` bytes plus the
declared address length. -/
structure SockAddr where
  bytes : List Nat
  len : Nat
  deriving DecidableEq, Repr

/-- `ptr::copy_nonoverlapping` of a record's bytes to offset 0 of a zeroed
`sockaddr_storage`: the record bytes followed by zeros up to the capacity. -/
def storageCopy (recBytes : List Nat) : List Nat :=
  recBytes ++ List.replicate (SOCKADDR_STORAGE_SIZE - recBytes.length) 0

/-- The `"ipn:"` branch of `create_bp_sockaddr_with_string`
(`src/endpoint.rs` lines 121-159), on the remainder after the prefix:
split on `'.'`, demand exactly two tokens, parse each as u32, and build the
`SockAddrBp` record copied into a zeroed `sockaddr_storage` with declared
length `size_of::<SockAddrBp>()`. -/
def ipnBranch (body : Str) : Except ErrorKind SockAddr :=
  match splitAll '.' body with
  | [t1, t2] =>
    match parseU32 t1 with
    | none => .error .InvalidInput
    | some node_id =>
      match parseU32 t2 with
      | none => .error .InvalidInput
      | some service_id =>
        .ok ⟨storageCopy (sockAddrBpBytes
              ⟨AF_BP, BP_SCHEME_IPN, node_id, service_id⟩),
            sizeOfSockAddrBp⟩
  | _ => .error .InvalidInput

/-- `src/endpoint.rs` lines 112-173: `create_bp_sockaddr_with_string`. -/
def create_bp_sockaddr_with_string (s : Str) : Except ErrorKind SockAddr :=
  if s = [] then .error .InvalidInput
  else
    match stripLead "ipn:".data s with
    | some body => ipnBranch body
    | none =>
      if "dtn:".data.isPrefixOf s then .error .Unsupported
      else .error .InvalidInput

/-! ### Event model (`src/event.rs`) -/

/-- `src/event.rs` lines 94-100: `enum ConnectionFailureReason`. -/
inductive ConnectionFailureReason where
  | Refused
  | Timeout
  | NetworkUnreachable
  | Other
  deriving DecidableEq, Repr

/-- `src/event.rs` lines 12-28: `enum DataEvent`.  The Rust field names `from`
and `to` are Lean keywords and are rendered `sender` and `dest`. -/
inductive DataEvent where
  | Received (data : List Nat) (sender : Endpoint)
  | Sending (message_id : Str) (dest : Endpoint) (bytes : Nat)
  | Sent (message_id : Str) (dest : Endpoint) (bytes_sent : Nat)
  deriving DecidableEq, Repr

/-- `src/event.rs` lines 47-52: `enum ConnectionEvent`. -/
inductive ConnectionEvent where
  | ListenerStarted (endpoint : Endpoint)
  | Established (remote : Endpoint)
  | Closed (remote : Option Endpoint)
  deriving DecidableEq, Repr

/-- `src/event.rs` lines 72-92: `enum ErrorEvent`. -/
inductive ErrorEvent where
  | ConnectionFailed (endpoint : Endpoint) (reason : ConnectionFailureReason)
      (token : Str)
  | SendFailed (endpoint : Endpoint) (token : Str) (reason : Str)
  | ReceiveFailed (endpoint : Endpoint) (reason : Str)
  | SocketError (endpoint : Endpoint) (reason : Str)
  deriving DecidableEq, Repr

/-- `src/event.rs` lines 5-10: `enum SocketEngineEvent`. -/
inductive SocketEngineEvent where
  | Data (e : DataEvent)
  | Connection (e : ConnectionEvent)
  | Error (e : ErrorEvent)
  deriving DecidableEq, Repr

/-- `src/event.rs` lines 124-135: `notify_all_observers`, modelled as the
delivery trace.  Each registered observer is represented by its
lock-acquisition outcome (`true` iff `obs.lock()` returns `Ok`); the result
lists, in order, one `(observer index, event)` pair per `on_engine_event`
invocation.  A failed lock falls through silently to the next observer. -/
def notifyFrom (i : Nat) (ev : SocketEngineEvent) :
    List Bool → List (Nat × SocketEngineEvent)
  | [] => []
  | lockOk :: rest =>
    (if lockOk then [(i, ev)] else []) ++ notifyFrom (i + 1) ev rest

def notify_all_observers (locks : List Bool) (ev : SocketEngineEvent) :
    List (Nat × SocketEngineEvent) :=
  notifyFrom 0 ev locks

/-! ### Socket preparation (`src/socket.rs`) -/

/-- One socket configuration call made by `GenericSocket::prepare_socket`. -/
inductive SockOpt where
  | SetNonblocking (b : Bool)
  | SetReuseAddress (b : Bool)
  | SetReusePort (b : Bool)
  | Bind
  deriving DecidableEq, Repr

/-- `src/socket.rs` lines 68-90: `GenericSocket::prepare_socket`, modelled as
the ordered trace of configuration calls on the error-free path. -/
def prepare_socket : EndpointProto → List SockOpt
  | .Udp =>
    [.SetNonblocking true, .SetReuseAddress false, .SetReusePort false, .Bind]
  | .Tcp =>
    [.SetNonblocking true, .SetReuseAddress true, .SetReusePort false, .Bind]
  | .Bp =>
    [.SetNonblocking true, .SetReuseAddress true, .SetReusePort false, .Bind]

/-! ### Listener receive loops (`src/socket.rs`, `src/listeners.rs`) -/

/-- `std::io::ErrorKind` values distinguished by the loop and send code; all
kinds the code does not name fall under `OtherKind`. -/
inductive IoErrorKind where
  | ConnectionRefused
  | TimedOut
  | WouldBlock
  | Interrupted
  | OtherKind
  deriving DecidableEq, Repr

/-- Outcome of one `read`/`recv` call: `ok data` for `Ok(size)` with the bytes
read (`buffer[..size].to_vec()`), `err kind msg` for `Err(e)` with `e.kind()`
and `e.to_string()`. -/
inductive RecvOutcome where
  | ok (data : List Nat)
  | err (kind : IoErrorKind) (msg : Str)
  deriving DecidableEq, Repr

/-- Outcome of one `recv_from` call, which also reports the peer address. -/
inductive RecvFromOutcome where
  | ok (data : List Nat) (peer : Str)
  | err (kind : IoErrorKind) (msg : Str)
  deriving DecidableEq, Repr

/-- Effect of one loop iteration: the events emitted, whether the loop keeps
running, and whether it slept (`thread::sleep(10ms)`) before retrying. -/
structure LoopStep where
  events : List SocketEngineEvent
  continues : Bool
  slept : Bool
  deriving DecidableEq, Repr

/-- `src/socket.rs` lines 108-138: one iteration of the UDP/BP receive loop in
`GenericSocket::start_listener`.  `Ok(size)` emits `Received` whose `from`
endpoint is the placeholder string `"unsupported"` with the listener's own
protocol (the loop uses `read`, which never learns the sender);
`WouldBlock` sleeps 10 ms and retries without any event; any other error
emits `ReceiveFailed` and then `continue`s the loop. -/
def generic_listener_udp_bp_step (self : Endpoint) : RecvOutcome → LoopStep
  | .ok data =>
    ⟨[.Data (.Received data ⟨self.proto, "unsupported".data⟩)], true, false⟩
  | .err kind _ =>
    if kind = .WouldBlock then ⟨[], true, true⟩
    else ⟨[.Error (.ReceiveFailed self "UDP/BP read error".data)], true, false⟩

/-- `src/listeners.rs` lines 194-224: one iteration of the dedicated-thread
receive loop of `BpListenerHandler::start_blocking`.  `Ok` emits `Received`
with the listener's own endpoint as `from`; `WouldBlock` sleeps 10 ms and
retries; any other error emits `ReceiveFailed` and `break`s. -/
def bp_listener_thread_step (self : Endpoint) : RecvOutcome → LoopStep
  | .ok data => ⟨[.Data (.Received data self)], true, false⟩
  | .err kind msg =>
    if kind = .WouldBlock then ⟨[], true, true⟩
    else ⟨[.Error (.ReceiveFailed self msg)], false, false⟩

/-- `src/listeners.rs` lines 130-155: one iteration of the
`UdpListenerHandler::start` receive loop.  `recv_from` success emits
`Received` with the sending peer's address; any error emits `ReceiveFailed`
and returns from the loop. -/
def udp_listener_handler_step (self : Endpoint) : RecvFromOutcome → LoopStep
  | .ok data peer => ⟨[.Data (.Received data ⟨.Udp, peer⟩)], true, false⟩
  | .err _ msg => ⟨[.Error (.ReceiveFailed self msg)], false, false⟩

/-- `src/socket.rs` lines 229-262: one iteration of the per-connection read
loop of `handle_tcp_connection`.  `Ok(0)` (empty read) emits `Closed` and
exits; a non-empty read emits `Received` from the peer endpoint; a read error
emits `ReceiveFailed` carrying the peer endpoint's display string and exits. -/
def tcp_connection_read_step (localEp peerEp : Endpoint) :
    RecvOutcome → LoopStep
  | .ok [] => ⟨[.Connection (.Closed (some peerEp))], false, false⟩
  | .ok data => ⟨[.Data (.Received data peerEp)], true, false⟩
  | .err _ _ =>
    ⟨[.Error (.ReceiveFailed localEp peerEp.to_string)], false, false⟩

/-- `src/listeners.rs` lines 74-106: one iteration of the per-connection read
loop of `TcpListenerHandler::handle_tcp_stream` (its `endpoint` argument is
the listener's endpoint, used both as `from` and in errors). -/
def tcp_stream_read_step (self : Endpoint) : RecvOutcome → LoopStep
  | .ok [] => ⟨[.Connection (.Closed (some self))], false, false⟩
  | .ok data => ⟨[.Data (.Received data self)], true, false⟩
  | .err _ msg => ⟨[.Error (.ReceiveFailed self msg)], false, false⟩

/-- Runs a loop body over a list of successive call outcomes, collecting the
emitted events; stops consuming outcomes when an iteration exits the loop. -/
def runSteps {α : Type} (step : α → LoopStep) : List α → List SocketEngineEvent
  | [] => []
  | o :: os =>
    let st := step o
    st.events ++ (if st.continues then runSteps step os else [])

/-! ### Send paths (`src/senders.rs`, `src/engine.rs`) -/

/-- `src/senders.rs` lines 65-71 (and the same cascade inlined in
`src/engine.rs` lines 176-203): map a connect error kind to a
`ConnectionFailureReason` — refused, timed-out, anything else `Other`. -/
def classify_connect_error (kind : IoErrorKind) : ConnectionFailureReason :=
  if kind = .ConnectionRefused then .Refused
  else if kind = .TimedOut then .Timeout
  else .Other

/-- `src/senders.rs` lines 17-83: `TcpSender::send`, as the list of emitted
events.  `connectRes` carries the connect error's kind and display string;
note the source stores `e.to_string()` in the `token` field of
`ConnectionFailed`.  On a successful write the `shutdown` result is ignored
and `Closed` is always emitted. -/
def tcp_sender_send (connectRes : Except (IoErrorKind × Str) Unit)
    (writeRes : Except Str Unit) (data : List Nat) (token : Str)
    (endpoint : Endpoint) : List SocketEngineEvent :=
  match connectRes with
  | .ok _ =>
    .Connection (.Established endpoint) ::
      (match writeRes with
       | .ok _ =>
         [.Data (.Sent token endpoint data.length),
          .Connection (.Closed (some endpoint))]
       | .error e => [.Error (.SendFailed endpoint token e)])
  | .error (kind, msg) =>
    [.Error (.ConnectionFailed endpoint (classify_connect_error kind) msg)]

/-- `src/senders.rs` lines 88-132: `UdpSender::send`.  The `Ok(_)` of
`send_to` discards the OS-reported count; `Sent` carries `data.len()`. -/
def udp_sender_send (bindRes : Except Str Unit) (sendToRes : Except Str Nat)
    (data : List Nat) (token : Str) (endpoint : Endpoint) :
    List SocketEngineEvent :=
  match bindRes with
  | .ok _ =>
    match sendToRes with
    | .ok _ => [.Data (.Sent token endpoint data.length)]
    | .error e => [.Error (.SendFailed endpoint token e)]
  | .error e =>
    [.Error (.SendFailed endpoint token
      ("Failed to create UDP socket: ".data ++ e))]

/-- `src/senders.rs` lines 137-201: `BpSender::send`.  `createRes` is the
result of `create_bp_socket` (BP sockaddr construction plus raw socket
creation); a non-BP endpoint is rejected with `SendFailed`. -/
def bp_sender_send (createRes : Except Str Unit) (sendToRes : Except Str Nat)
    (data : List Nat) (token : Str) (endpoint : Endpoint) :
    List SocketEngineEvent :=
  match endpoint.proto with
  | .Bp =>
    match createRes with
    | .ok _ =>
      match sendToRes with
      | .error err => [.Error (.SendFailed endpoint token err)]
      | .ok _ => [.Data (.Sent token endpoint data.length)]
    | .error e => [.Error (.SendFailed endpoint token e)]
  | _ =>
    [.Error (.SendFailed endpoint token
      "BpSender can only handle BP endpoints".data)]

/-- `src/engine.rs` lines 126-263: the background task spawned by
`Engine::send_async`, as the list of events it emits.  Parameters supply the
outcome of each OS call: `sockRes` is the socket acquisition result computed
before spawning (`try_reuse_socket`), `sendToRes` the `send_to` of the UDP/BP
branch, and `connectRes`/`writeRes`/`flushRes`/`shutdownRes` the TCP branch
calls.  `sockEp` is `generic_socket.endpoint` — the branch is chosen on its
protocol and the final `Closed` event carries it — while the other events
carry the target endpoint. -/
def engine_send_task (sockRes : Except Str Unit) (sockEp target : Endpoint)
    (data : List Nat) (token : Str) (sendToRes : Except Str Nat)
    (connectRes : Except IoErrorKind Unit)
    (writeRes flushRes shutdownRes : Except Str Unit) :
    List SocketEngineEvent :=
  match sockRes with
  | .error e => [.Error (.SocketError target e)]
  | .ok _ =>
    .Data (.Sending token target data.length) ::
      match sockEp.proto with
      | .Bp | .Udp =>
        (match sendToRes with
         | .error err => [.Error (.SendFailed target token err)]
         | .ok _ => [.Data (.Sent token target data.length)])
      | .Tcp =>
        match connectRes with
        | .error kind =>
          if kind = .ConnectionRefused then
            [.Error (.ConnectionFailed target .Refused token)]
          else if kind = .TimedOut then
            [.Error (.ConnectionFailed target .Timeout token)]
          else
            [.Error (.ConnectionFailed target .Other token)]
        | .ok _ =>
          .Connection (.Established target) ::
            (match writeRes with
             | .error err => [.Error (.SendFailed target token err)]
             | .ok _ => [.Data (.Sent token target data.length)]) ++
            (match flushRes with
             | .error err => [.Error (.SendFailed target token err)]
             | .ok _ => []) ++
            (match shutdownRes with
             | .error err =>
               [.Error (.SendFailed target token
                 ("Shutdown failed: ".data ++ err))]
             | .ok _ => [.Connection (.Closed (some sockEp))])

/-- `bytes_sent` fields of the `Sent` events in a list. -/
def sentCounts (evs : List SocketEngineEvent) : List Nat :=
  evs.filterMap fun ev =>
    match ev with
    | .Data (.Sent _ _ n) => some n
    | _ => none

/-- Reasons of the `ConnectionFailed` events in a list. -/
def cfReasons (evs : List SocketEngineEvent) : List ConnectionFailureReason :=
  evs.filterMap fun ev =>
    match ev with
    | .Error (.ConnectionFailed _ r _) => some r
    | _ => none

/-! ### `send_async`'s synchronous prefix (`src/engine.rs`) -/

/-- Modelled from the spec: decimal token of a standard address (digits only,
no leading zero except `"0"` itself). -/
def parseDecimal (s : Str) : Option Nat :=
  if s ≠ [] ∧ s.all isAsciiDigit ∧ (s.length = 1 ∨ s.head? ≠ some '0') then
    some (natOfDigits s)
  else none

/-- Modelled from the spec: `addr.parse::<SocketAddr>()` for the standard
`host:port` notation, restricted to the IPv4 dotted-quad form the spec uses
(four decimal octets below 256, `':'`, decimal port below 2^16).  Only
`endpoint_to_sockaddr` depends on it and no claim depends on its details. -/
def parseIpv4SocketAddr (s : Str) : Option (Nat × Nat × Nat × Nat × Nat) :=
  match splitn2 ':' s with
  | (_, none) => none
  | (host, some portStr) =>
    match splitAll '.' host with
    | [a, b, c, d] =>
      match parseDecimal a, parseDecimal b, parseDecimal c, parseDecimal d,
          parseDecimal portStr with
      | some x, some y, some z, some w, some p =>
        if x < 256 ∧ y < 256 ∧ z < 256 ∧ w < 256 ∧ p < 2 ^ 16 then
          some (x, y, z, w, p)
        else none
      | _, _, _, _, _ => none
    | _ => none

/-- Modelled from the spec: the `sockaddr_in` record of an IPv4 address
(family AF_INET = 2 little-endian, big-endian port, four octets, zero padding
to 16 bytes) in a zeroed storage with declared length 16. -/
def sockAddrOfIpv4 : Nat × Nat × Nat × Nat × Nat → SockAddr
  | (a, b, c, d, p) =>
    ⟨storageCopy ([2, 0] ++ [p / 256 % 256, p % 256] ++ [a, b, c, d] ++
        List.replicate 8 0), 16⟩

/-- Modelled from the spec: `endpoint_to_sockaddr` — imported by `engine.rs`
from `socket.rs` but absent from the sources (only its caller survives).  Per
§4.3 of the spec it resolves an endpoint to its low-level address: for
Udp/Tcp by standard socket-address parsing, for Bp via
`create_bp_sockaddr_with_string` (exactly the resolution `GenericSocket::new`
performs, socket.rs lines 31-57). -/
def endpoint_to_sockaddr (e : Endpoint) : Except ErrorKind SockAddr :=
  match e.proto with
  | .Udp | .Tcp =>
    (match parseIpv4SocketAddr e.endpoint with
     | some q => .ok (sockAddrOfIpv4 q)
     | none => .error .InvalidInput)
  | .Bp => create_bp_sockaddr_with_string e.endpoint

inductive SyncBehavior where
  | Panics
  | ReturnsAndSpawns
  deriving DecidableEq, Repr

/-- `src/engine.rs` lines 113-126: the synchronous prefix of `send_async`
before the background task is spawned.  Line 124 evaluates
`endpoint_to_sockaddr(target_endpoint).unwrap()` on the caller's thread: an
`Err` there panics `send_async` itself.  The source endpoint, payload and
token play no part in this call. -/
def send_async_sync (target : Endpoint) : SyncBehavior :=
  match endpoint_to_sockaddr target with
  | .ok _ => .ReturnsAndSpawns
  | .error _ => .Panics

/-! ### Helper lemmas about the string utilities -/

theorem stripLead_append (p r : Str) : stripLead p (p ++ r) = some r := by
  induction p with
  | nil => rfl
  | cons c cs ih => simp [stripLead, ih]

theorem stripLead_eq_some {p s r : Str} :
    stripLead p s = some r ↔ s = p ++ r := by
  constructor
  · intro h
    induction p generalizing s with
    | nil =>
      simp only [stripLead, Option.some.injEq] at h
      simpa using h
    | cons c cs ih =>
      cases s with
      | nil => simp [stripLead] at h
      | cons d ds =>
        by_cases hc : c = d
        · subst hc
          simp only [stripLead, if_pos rfl] at h
          simpa using ih h
        · simp [stripLead, hc] at h
  · rintro rfl
    exact stripLead_append p r

theorem stripLead_eq_none {p s : Str} :
    stripLead p s = none ↔ ¬ ∃ r, s = p ++ r := by
  constructor
  · rintro h ⟨r, rfl⟩
    rw [stripLead_append] at h
    exact Option.noConfusion h
  · intro h
    cases hs : stripLead p s with
    | none => rfl
    | some r => exact absurd ⟨r, stripLead_eq_some.mp hs⟩ h

theorem splitn2_no_sep {sep : Char} {s : Str} (h : sep ∉ s) :
    splitn2 sep s = (s, none) := by
  induction s with
  | nil => rfl
  | cons c cs ih =>
    simp only [List.mem_cons, not_or] at h
    have hc : ¬ c = sep := fun hcc => h.1 hcc.symm
    simp [splitn2, hc, ih h.2]

theorem splitn2_append {sep : Char} {a : Str} (b : Str) (h : sep ∉ a) :
    splitn2 sep (a ++ sep :: b) = (a, some b) := by
  induction a with
  | nil => simp [splitn2]
  | cons c cs ih =>
    simp only [List.mem_cons, not_or] at h
    have hc : ¬ c = sep := fun hcc => h.1 hcc.symm
    simp [splitn2, hc, ih h.2]

theorem ipn_tag_eq : "ipn:".data = ['i', 'p', 'n', ':'] := rfl

theorem dtn_tag_eq : "dtn:".data = ['d', 't', 'n', ':'] := rfl

/-- C1: `create_bp_sockaddr_with_string` behaves, for every input string `s`,
as: empty input fails with `InvalidInput`; an `"ipn:"` input whose remainder
splits on `'.'` into exactly two tokens parsing as u32 values `n` and `sv`
succeeds with the bytes of the record `{family_id = AF_BP (28), scheme_id = 1,
node_id = n, service_id = sv}` copied at offset 0 into a zero-initialized
maximum-size (128-byte) address-storage buffer and declared length the
record's exact byte size 16 (not the storage capacity); a malformed `"ipn:"`
remainder or a non-u32 token fails with `InvalidInput`; a `"dtn:"` input fails
with `Unsupported`; anything else fails with `InvalidInput`. -/
theorem C1_create_bp_sockaddr_behavior (s : Str) :
    (s = [] → create_bp_sockaddr_with_string s = .error .InvalidInput) ∧
    (∀ body t1 t2 n sv, s = "ipn:".data ++ body →
      splitAll '.' body = [t1, t2] →
      parseU32 t1 = some n → parseU32 t2 = some sv →
      create_bp_sockaddr_with_string s =
        .ok ⟨storageCopy (sockAddrBpBytes ⟨AF_BP, 1, n, sv⟩),
             sizeOfSockAddrBp⟩ ∧
      AF_BP = 28 ∧ sizeOfSockAddrBp = 16 ∧ SOCKADDR_STORAGE_SIZE = 128 ∧
      (storageCopy (sockAddrBpBytes ⟨AF_BP, 1, n, sv⟩)).length =
        SOCKADDR_STORAGE_SIZE ∧
      sizeOfSockAddrBp ≠ SOCKADDR_STORAGE_SIZE) ∧
    (∀ body, s = "ipn:".data ++ body → (splitAll '.' body).length ≠ 2 →
      create_bp_sockaddr_with_string s = .error .InvalidInput) ∧
    (∀ body t1 t2, s = "ipn:".data ++ body → splitAll '.' body = [t1, t2] →
      parseU32 t1 = none ∨ parseU32 t2 = none →
      create_bp_sockaddr_with_string s = .error .InvalidInput) ∧
    (∀ r, s = "dtn:".data ++ r →
      create_bp_sockaddr_with_string s = .error .Unsupported) ∧
    (s ≠ [] → (¬ ∃ r, s = "ipn:".data ++ r) → (¬ ∃ r, s = "dtn:".data ++ r) →
      create_bp_sockaddr_with_string s = .error .InvalidInput) := by
  refine ⟨?_, ?_, ?_, ?_, ?_, ?_⟩
  · rintro rfl
    rfl
  · rintro body t1 t2 n sv rfl h1 h2 h3
    have hne : ("ipn:".data ++ body) ≠ [] := by simp [ipn_tag_eq]
    refine ⟨?_, rfl, rfl, rfl, ?_, by decide⟩
    · simp only [create_bp_sockaddr_with_string, if_neg hne, stripLead_append,
        ipnBranch, h1, h2, h3, BP_SCHEME_IPN]
    · simp [storageCopy, sockAddrBpBytes, u16le, u32le, SOCKADDR_STORAGE_SIZE]
  · rintro body rfl hlen
    have hne : ("ipn:".data ++ body) ≠ [] := by simp [ipn_tag_eq]
    simp only [create_bp_sockaddr_with_string, if_neg hne, stripLead_append,
      ipnBranch]
    rcases hsp : splitAll '.' body with _ | ⟨a, _ | ⟨b, _ | ⟨c, l⟩⟩⟩
    · rfl
    · rfl
    · exact absurd (by rw [hsp]; rfl) hlen
    · rfl
  · rintro body t1 t2 rfl hsp hpar
    have hne : ("ipn:".data ++ body) ≠ [] := by simp [ipn_tag_eq]
    simp only [create_bp_sockaddr_with_string, if_neg hne, stripLead_append,
      ipnBranch, hsp]
    rcases hpar with h | h
    · simp only [h]
    · cases hp1 : parseU32 t1 with
      | none => rfl
      | some n => simp only [h]
  · rintro r rfl
    have hne : ("dtn:".data ++ r) ≠ [] := by simp [dtn_tag_eq]
    have hip : stripLead "ipn:".data ("dtn:".data ++ r) = none := by
      simp [ipn_tag_eq, dtn_tag_eq, stripLead]
    have hdp : "dtn:".data.isPrefixOf ("dtn:".data ++ r) = true := by
      simp [List.isPrefixOf_iff_prefix, List.prefix_append]
    rw [create_bp_sockaddr_with_string, if_neg hne, hip]
    simp [hdp]
  · intro hne h1 h2
    have hip : stripLead "ipn:".data s = none :=
      stripLead_eq_none.mpr h1
    have hdp : ¬ "dtn:".data.isPrefixOf s = true := by
      simp only [List.isPrefixOf_iff_prefix]
      rintro ⟨t, ht⟩
      exact h2 ⟨t, ht.symm⟩
    rw [create_bp_sockaddr_with_string, if_neg hne, hip]
    simp [hdp]

theorem C1_witness :
    create_bp_sockaddr_with_string "ipn:42.7".data =
      .ok ⟨storageCopy (sockAddrBpBytes ⟨AF_BP, 1, 42, 7⟩),
           sizeOfSockAddrBp⟩ ∧
    AF_BP = 28 ∧ sizeOfSockAddrBp = 16 ∧ SOCKADDR_STORAGE_SIZE = 128 ∧
    (storageCopy (sockAddrBpBytes ⟨AF_BP, 1, 42, 7⟩)).length =
      SOCKADDR_STORAGE_SIZE ∧
    sizeOfSockAddrBp ≠ SOCKADDR_STORAGE_SIZE :=
  (C1_create_bp_sockaddr_behavior "ipn:42.7".data).2.1 "42.7".data
    "42".data "7".data 42 7 rfl rfl rfl rfl

/-- Helper: `Endpoint::from_str` accepts `"<scheme> <addr>"` whenever the
scheme token (space-free) lower-cases to one of the three protocol tags, and
never inspects the address part. -/
theorem from_str_of_scheme (scheme addr : Str) (proto : EndpointProto)
    (hsp : ' ' ∉ scheme) (hlow : toLowerStr scheme = proto.to_string) :
    Endpoint.from_str (scheme ++ ' ' :: addr) = .ok ⟨proto, addr⟩ := by
  have hs := splitn2_append addr hsp
  cases proto <;>
    · simp only [Endpoint.from_str, hs, hlow, EndpointProto.to_string]
      simp

/-- C5: for every valid endpoint string `scheme ++ " " ++ addr` whose scheme
token lower-cases to `udp`/`tcp`/`bp`, parsing succeeds and formatting the
result gives the input back with the scheme case-normalized; conversely,
`parse (format e) = e` for every endpoint produced by parsing. -/
theorem C5_endpoint_parse_format_round_trip :
    (∀ scheme addr proto, ' ' ∉ scheme →
      toLowerStr scheme = EndpointProto.to_string proto →
      Endpoint.from_str (scheme ++ ' ' :: addr) = .ok ⟨proto, addr⟩ ∧
      Endpoint.to_string ⟨proto, addr⟩ = toLowerStr scheme ++ ' ' :: addr) ∧
    (∀ s e, Endpoint.from_str s = .ok e →
      Endpoint.from_str e.to_string = .ok e) := by
  constructor
  · intro scheme addr proto hsp hlow
    refine ⟨from_str_of_scheme scheme addr proto hsp hlow, ?_⟩
    simp [Endpoint.to_string, hlow]
  · rintro s ⟨proto, addr⟩ _h
    have hsp : ' ' ∉ EndpointProto.to_string proto := by cases proto <;> decide
    have hlow : toLowerStr (EndpointProto.to_string proto) =
        EndpointProto.to_string proto := by cases proto <;> decide
    exact from_str_of_scheme _ addr proto hsp hlow

theorem C5_witness :
    (Endpoint.from_str ("UDP".data ++ ' ' :: "127.0.0.1:9001".data) =
      .ok ⟨.Udp, "127.0.0.1:9001".data⟩ ∧
     Endpoint.to_string ⟨.Udp, "127.0.0.1:9001".data⟩ =
      toLowerStr "UDP".data ++ ' ' :: "127.0.0.1:9001".data) ∧
    Endpoint.from_str (Endpoint.to_string ⟨.Bp, "ipn:42.7".data⟩) =
      .ok ⟨.Bp, "ipn:42.7".data⟩ :=
  ⟨C5_endpoint_parse_format_round_trip.1 "UDP".data "127.0.0.1:9001".data .Udp
      (by decide) (by decide),
   C5_endpoint_parse_format_round_trip.2 "bp ipn:42.7".data
      ⟨.Bp, "ipn:42.7".data⟩ (by rfl)⟩

/-- C4 counterexample: the claim states `parse "bp ipn:12"` fails with
`InvalidInput`, but `Endpoint::from_str` accepts it — the address part is
never inspected at parse time. -/
theorem C4_counterexample :
    Endpoint.from_str "bp ipn:12".data = .ok ⟨.Bp, "ipn:12".data⟩ := by rfl

/-- C4 amended: endpoint parsing validates only the scheme token
(`"ftp ..."` fails with the unsupported-scheme error), while address/scheme
consistency is not checked by `from_str` — `"bp ipn:12"` and `"bp ipn:abc.1"`
parse successfully with any address — and is instead enforced later by the
BP address builder, which rejects `"ipn:12"` (missing `.`) and `"ipn:abc.1"`
(non-numeric node id) with `InvalidInput`. -/
theorem C4_amended_scheme_only_validation :
    Endpoint.from_str "ftp 1.2.3.4:80".data =
      .error ("Unsupported scheme: ".data ++ "ftp".data) ∧
    (∀ addr, Endpoint.from_str ("bp".data ++ ' ' :: addr) = .ok ⟨.Bp, addr⟩) ∧
    Endpoint.from_str "bp ipn:abc.1".data = .ok ⟨.Bp, "ipn:abc.1".data⟩ ∧
    create_bp_sockaddr_with_string "ipn:12".data = .error .InvalidInput ∧
    create_bp_sockaddr_with_string "ipn:abc.1".data = .error .InvalidInput := by
  refine ⟨by rfl, ?_, by rfl, by rfl, by rfl⟩
  intro addr
  exact from_str_of_scheme "bp".data addr .Bp (by decide) (by decide)

/-- C7 counterexample: the claim says preparing a socket for listening enables
address reuse for every protocol, but the UDP branch of `prepare_socket`
calls `set_reuse_address(false)`. -/
theorem C7_counterexample :
    (prepare_socket .Udp).contains (.SetReuseAddress true) = false ∧
    (prepare_socket .Udp).contains (.SetReuseAddress false) = true := by
  decide

/-- C7 amended: for every protocol, preparing a socket for listening sets
non-blocking mode, then sets address reuse — enabled for Tcp and Bp but
disabled for Udp — then disables port reuse, and then binds. -/
theorem C7_amended_prepare_socket (proto : EndpointProto) :
    prepare_socket proto =
      [.SetNonblocking true,
       .SetReuseAddress (if proto = .Udp then false else true),
       .SetReusePort false, .Bind] := by
  cases proto <;> rfl

theorem notifyFrom_eq (ev : SocketEngineEvent) (locks : List Bool) :
    ∀ i, notifyFrom i ev locks =
      ((List.enumFrom i locks).filter (fun p => p.2)).map
        (fun p => (p.1, ev)) := by
  induction locks with
  | nil => intro i; rfl
  | cons b rest ih =>
    intro i
    cases b <;> simp [notifyFrom, List.enumFrom, ih, List.filter]

/-- C8: `notify_all_observers` delivers the event exactly once to each
observer whose lock acquisition succeeds, in registration order; an observer
whose lock fails is skipped with no event and no error, and the remaining
observers still receive the same event. -/
theorem C8_notify_all_observers_trace (locks : List Bool)
    (ev : SocketEngineEvent) :
    notify_all_observers locks ev =
      ((locks.enum.filter (fun p => p.2)).map (fun p => (p.1, ev))) :=
  notifyFrom_eq ev locks 0

/-- C2 counterexample: in the `GenericSocket::start_listener` UDP/BP receive
loop a genuine (non-would-block) receive error emits `ReceiveFailed` but the
loop `continue`s — a further receive call is processed after the error,
contradicting the claim that the loop stops. -/
theorem C2_counterexample :
    runSteps (generic_listener_udp_bp_step ⟨.Udp, "127.0.0.1:9001".data⟩)
        [.err .OtherKind "connection reset".data, .ok [104, 105]] =
      [.Error (.ReceiveFailed ⟨.Udp, "127.0.0.1:9001".data⟩
          "UDP/BP read error".data),
       .Data (.Received [104, 105] ⟨.Udp, "unsupported".data⟩)] ∧
    (generic_listener_udp_bp_step ⟨.Udp, "127.0.0.1:9001".data⟩
        (.err .OtherKind "connection reset".data)).continues = true := by
  constructor <;> rfl

/-- C2 amended: would-block emits no event and is retried after a short sleep
in the loops that test for it (the `GenericSocket` UDP/BP loop and the BP
listener thread); a genuine receive error emits exactly one `ReceiveFailed`
and stops the loop in the BP listener thread, the UDP listener handler and
both stream per-connection read loops — but in the `GenericSocket` UDP/BP
loop it emits exactly one `ReceiveFailed` and the loop keeps receiving. -/
theorem C2_amended_receive_loop_policy :
    (∀ self msg rest,
      runSteps (generic_listener_udp_bp_step self)
          (.err .WouldBlock msg :: rest) =
        runSteps (generic_listener_udp_bp_step self) rest ∧
      (generic_listener_udp_bp_step self (.err .WouldBlock msg)).slept =
        true) ∧
    (∀ self msg rest,
      runSteps (bp_listener_thread_step self) (.err .WouldBlock msg :: rest) =
        runSteps (bp_listener_thread_step self) rest ∧
      (bp_listener_thread_step self (.err .WouldBlock msg)).slept = true) ∧
    (∀ self kind msg rest, kind ≠ IoErrorKind.WouldBlock →
      runSteps (generic_listener_udp_bp_step self) (.err kind msg :: rest) =
        .Error (.ReceiveFailed self "UDP/BP read error".data) ::
          runSteps (generic_listener_udp_bp_step self) rest) ∧
    (∀ self kind msg rest, kind ≠ IoErrorKind.WouldBlock →
      runSteps (bp_listener_thread_step self) (.err kind msg :: rest) =
        [.Error (.ReceiveFailed self msg)]) ∧
    (∀ self kind msg rest,
      runSteps (udp_listener_handler_step self) (.err kind msg :: rest) =
        [.Error (.ReceiveFailed self msg)]) ∧
    (∀ localEp peerEp kind msg rest,
      runSteps (tcp_connection_read_step localEp peerEp)
          (.err kind msg :: rest) =
        [.Error (.ReceiveFailed localEp peerEp.to_string)]) ∧
    (∀ self kind msg rest,
      runSteps (tcp_stream_read_step self) (.err kind msg :: rest) =
        [.Error (.ReceiveFailed self msg)]) := by
  refine ⟨?_, ?_, ?_, ?_, ?_, ?_, ?_⟩
  · intro self msg rest
    exact ⟨by simp [runSteps, generic_listener_udp_bp_step], rfl⟩
  · intro self msg rest
    exact ⟨by simp [runSteps, bp_listener_thread_step], rfl⟩
  · intro self kind msg rest h
    simp [runSteps, generic_listener_udp_bp_step, if_neg h]
  · intro self kind msg rest h
    simp [runSteps, bp_listener_thread_step, if_neg h]
  · intro self kind msg rest
    simp [runSteps, udp_listener_handler_step]
  · intro localEp peerEp kind msg rest
    simp [runSteps, tcp_connection_read_step]
  · intro self kind msg rest
    simp [runSteps, tcp_stream_read_step]

theorem C2_witness :
    runSteps (generic_listener_udp_bp_step ⟨.Bp, "ipn:1.2".data⟩)
        [.err .Interrupted "e".data, .ok [1]] =
      .Error (.ReceiveFailed ⟨.Bp, "ipn:1.2".data⟩ "UDP/BP read error".data) ::
        runSteps (generic_listener_udp_bp_step ⟨.Bp, "ipn:1.2".data⟩)
          [.ok [1]] ∧
    runSteps (bp_listener_thread_step ⟨.Bp, "ipn:1.2".data⟩)
        [.err .Interrupted "e".data, .ok [1]] =
      [.Error (.ReceiveFailed ⟨.Bp, "ipn:1.2".data⟩ "e".data)] :=
  ⟨C2_amended_receive_loop_policy.2.2.1 ⟨.Bp, "ipn:1.2".data⟩ .Interrupted
      "e".data [.ok [1]] (by decide),
   C2_amended_receive_loop_policy.2.2.2.1 ⟨.Bp, "ipn:1.2".data⟩ .Interrupted
      "e".data [.ok [1]] (by decide)⟩

/-- C6 counterexample: the `GenericSocket`-based datagram listener emits
`Received` whose `from` endpoint is the constant placeholder `"unsupported"`
— not the sending peer's address (`127.0.0.1:9002` in scenario A); the loop
reads with `read`, which never learns the sender. -/
theorem C6_counterexample :
    (generic_listener_udp_bp_step ⟨.Udp, "127.0.0.1:9001".data⟩
        (.ok [104, 105])).events =
      [.Data (.Received [104, 105] ⟨.Udp, "unsupported".data⟩)] ∧
    ((⟨.Udp, "unsupported".data⟩ : Endpoint) ==
        (⟨.Udp, "127.0.0.1:9002".data⟩ : Endpoint)) = false := by
  exact ⟨rfl, by decide⟩

/-- C6 amended: the tokio `UdpListenerHandler` emits `Received` carrying
exactly the bytes read and the sending peer's address; the
`GenericSocket`-based datagram listener emits the bytes read but a `from`
endpoint that is always the placeholder `"unsupported"` under the listener's
own protocol. -/
theorem C6_amended_received_event_sender :
    (∀ self data peer,
      (udp_listener_handler_step self (.ok data peer)).events =
        [.Data (.Received data ⟨.Udp, peer⟩)]) ∧
    (∀ self data,
      (generic_listener_udp_bp_step self (.ok data)).events =
        [.Data (.Received data ⟨self.proto, "unsupported".data⟩)]) :=
  ⟨fun _ _ _ => rfl, fun _ _ => rfl⟩

/-- C9: every `Sent` event emitted by any send path (the engine task's UDP/BP
and TCP branches, `TcpSender`, `UdpSender`, `BpSender`) carries `bytes_sent`
equal to the payload length, whatever byte count the OS send/write reported
(the `Ok` payload of the send result is discarded). -/
theorem C9_sent_carries_payload_length
    (sockRes : Except Str Unit) (sockEp target : Endpoint) (data : List Nat)
    (token : Str) (sendToRes : Except Str Nat)
    (connectRes : Except IoErrorKind Unit)
    (writeRes flushRes shutdownRes : Except Str Unit)
    (connectRes2 : Except (IoErrorKind × Str) Unit)
    (bindRes createRes : Except Str Unit) (endpoint : Endpoint) :
    ((sentCounts (engine_send_task sockRes sockEp target data token sendToRes
        connectRes writeRes flushRes shutdownRes)).all
      (fun n => n == data.length)) = true ∧
    ((sentCounts (tcp_sender_send connectRes2 writeRes data token
        endpoint)).all (fun n => n == data.length)) = true ∧
    ((sentCounts (udp_sender_send bindRes sendToRes data token
        endpoint)).all (fun n => n == data.length)) = true ∧
    ((sentCounts (bp_sender_send createRes sendToRes data token
        endpoint)).all (fun n => n == data.length)) = true := by
  refine ⟨?_, ?_, ?_, ?_⟩
  · cases sockRes with
    | error e => rfl
    | ok u =>
      rcases sockEp with ⟨p, a⟩
      cases p
      case Udp => cases sendToRes <;> simp [engine_send_task, sentCounts]
      case Bp => cases sendToRes <;> simp [engine_send_task, sentCounts]
      case Tcp =>
        cases connectRes with
        | error kind =>
          by_cases h1 : kind = IoErrorKind.ConnectionRefused <;>
            by_cases h2 : kind = IoErrorKind.TimedOut <;>
              simp [engine_send_task, sentCounts, h1, h2]
        | ok _ =>
          cases writeRes <;> cases flushRes <;> cases shutdownRes <;>
            simp [engine_send_task, sentCounts]
  · cases connectRes2 with
    | error km => rcases km with ⟨kind, msg⟩; rfl
    | ok _ => cases writeRes <;> simp [tcp_sender_send, sentCounts]
  · cases bindRes with
    | error e => rfl
    | ok _ => cases sendToRes <;> simp [udp_sender_send, sentCounts]
  · rcases endpoint with ⟨p, a⟩
    cases p <;> cases createRes <;> cases sendToRes <;>
      simp [bp_sender_send, sentCounts]

/-- C10: no send path ever emits a `ConnectionFailed` event whose reason is
`NetworkUnreachable`: the engine task's inline classification and
`TcpSender`'s `classify_connect_error` map every connect error to `Refused`,
`Timeout` or `Other` only. -/
theorem C10_no_network_unreachable
    (sockRes : Except Str Unit) (sockEp target : Endpoint) (data : List Nat)
    (token : Str) (sendToRes : Except Str Nat)
    (connectRes : Except IoErrorKind Unit)
    (writeRes flushRes shutdownRes : Except Str Unit)
    (connectRes2 : Except (IoErrorKind × Str) Unit) (endpoint : Endpoint) :
    ((cfReasons (engine_send_task sockRes sockEp target data token sendToRes
        connectRes writeRes flushRes shutdownRes)).contains
      ConnectionFailureReason.NetworkUnreachable) = false ∧
    ((cfReasons (tcp_sender_send connectRes2 writeRes data token
        endpoint)).contains ConnectionFailureReason.NetworkUnreachable) =
      false ∧
    (∀ kind, (classify_connect_error kind ==
      ConnectionFailureReason.NetworkUnreachable) = false) := by
  refine ⟨?_, ?_, ?_⟩
  · cases sockRes with
    | error e => rfl
    | ok u =>
      rcases sockEp with ⟨p, a⟩
      cases p
      case Udp => cases sendToRes <;> simp [engine_send_task, cfReasons]
      case Bp => cases sendToRes <;> simp [engine_send_task, cfReasons]
      case Tcp =>
        cases connectRes with
        | error kind =>
          by_cases h1 : kind = IoErrorKind.ConnectionRefused <;>
            by_cases h2 : kind = IoErrorKind.TimedOut <;>
              simp [engine_send_task, cfReasons, h1, h2]
        | ok _ =>
          cases writeRes <;> cases flushRes <;> cases shutdownRes <;>
            simp [engine_send_task, cfReasons]
  · cases connectRes2 with
    | error km =>
      rcases km with ⟨kind, msg⟩
      cases kind <;> simp [tcp_sender_send, cfReasons, classify_connect_error]
    | ok _ => cases writeRes <;> simp [tcp_sender_send, cfReasons]
  · intro kind
    cases kind <;> rfl

/-- C3 counterexample: `send_async` does not always return normally — when
the target endpoint's low-level address fails to resolve (here the BP address
`"x"`, which `create_bp_sockaddr_with_string` rejects), the `.unwrap()` on
line 124 of engine.rs panics in the caller instead of emitting any event. -/
theorem C3_counterexample :
    send_async_sync ⟨.Bp, "x".data⟩ = .Panics := by rfl

/-- C3 amended: `send_async` returns immediately and normally — with every
failure surfacing only as an observer event, e.g. a socket-acquisition
failure as exactly one `SocketError` — whenever the target endpoint's
low-level address resolves; when that resolution fails, the `unwrap` panics
`send_async` in the caller instead of reporting an event. -/
theorem C3_amended_send_async_no_panic_when_resolvable :
    (∀ target a, endpoint_to_sockaddr target = .ok a →
      send_async_sync target = .ReturnsAndSpawns) ∧
    (∀ e sockEp target data token sendToRes connectRes writeRes flushRes
        shutdownRes,
      engine_send_task (.error e) sockEp target data token sendToRes
          connectRes writeRes flushRes shutdownRes =
        [.Error (.SocketError target e)]) := by
  constructor
  · intro target a h
    simp [send_async_sync, h]
  · intro e sockEp target data token sendToRes connectRes writeRes flushRes
      shutdownRes
    rfl

theorem C3_witness :
    send_async_sync ⟨.Udp, "127.0.0.1:9001".data⟩ = .ReturnsAndSpawns :=
  C3_amended_send_async_no_panic_when_resolvable.1
    ⟨.Udp, "127.0.0.1:9001".data⟩ (sockAddrOfIpv4 (127, 0, 0, 1, 9001))
    (by rfl)
